import Mathlib

/-!
Verification of the Firestore data layer of the restaurant-review app
(`src/src/lib/firebase/firestore.js`), shallowly embedded in Lean.

JavaScript numbers are modelled as rationals together with NaN; absent or
undefined values are modelled with `Option`; JS truthiness is made explicit.
A Firestore transaction body is modelled as a single atomic state transition
on the state of one restaurant (the restaurant document plus its `ratings`
subcollection), reflecting the all-or-nothing commit of `runTransaction`.
-/

namespace FirestoreModel

/-- A JavaScript number reaching the arithmetic in this module: a rational or
NaN. Infinities do not arise on the modelled code paths (the only division has
a positive integer denominator whenever the numerator is a number). -/
inductive JSNum where
  | num (q : ℚ)
  | nan
  deriving DecidableEq

/-- JS truthiness of a number: `0` and `NaN` are falsy. -/
def JSNum.truthy : JSNum → Bool
  | .num q => q != 0
  | .nan => false

/-- JS `+` on numbers: NaN propagates. -/
def JSNum.add : JSNum → JSNum → JSNum
  | .num a, .num b => .num (a + b)
  | _, _ => .nan

/-- JS `/` on numbers: NaN propagates. Division by zero is collapsed to NaN;
on the modelled code paths the denominator is a nonzero number whenever the
numerator is a number, so the Infinity cases of JS never arise. -/
def JSNum.div : JSNum → JSNum → JSNum
  | .num a, .num b => if b = 0 then .nan else .num (a / b)
  | _, _ => .nan

/-- Truthiness of an optional numeric field: `undefined`, `0` and `NaN` are
falsy. -/
def optTruthy : Option JSNum → Bool
  | none => false
  | some v => v.truthy

/-- JS `Number(x)` on the values that reach it here: `Number(undefined)` is
NaN, a number coerces to itself. -/
def toNumber : Option JSNum → JSNum
  | none => .nan
  | some v => v

/-- Truthiness of an optional string: `undefined` and `""` are falsy. -/
def truthyStr : Option String → Bool
  | none => false
  | some s => s != ""

/-- The aggregate fields stored on a restaurant document. A field may be
absent (`none`) on a document that has never been aggregated. -/
structure RestaurantData where
  numRatings : Option JSNum
  sumRating : Option JSNum
  avgRating : Option JSNum
  deriving DecidableEq

/-- The review object passed by the caller of `addReviewToRestaurant`. Its
`rating` field may be absent, in which case `Number(review.rating)` is NaN. -/
structure Review where
  rating : Option JSNum
  text : Option String
  deriving DecidableEq

/-- A rating document as written under `restaurants/{id}/ratings`: the spread
of the review object plus the `timestamp` field added by `updateWithRating`
(an epoch instant, modelled as an integer). -/
structure RatingDoc where
  rating : Option JSNum
  text : Option String
  timestamp : ℤ
  deriving DecidableEq

/-- The store state relevant to one restaurant: the restaurant document
(`none` when it does not exist) and its `ratings` subcollection. -/
structure RestaurantState where
  restaurant : Option RestaurantData
  ratings : List RatingDoc
  deriving DecidableEq

/-- The `numRatings` field of the restaurant document, when present. -/
def RestaurantState.aggNumRatings (s : RestaurantState) : Option JSNum :=
  s.restaurant.bind fun d => d.numRatings

/-- The `sumRating` field of the restaurant document, when present. -/
def RestaurantState.aggSumRating (s : RestaurantState) : Option JSNum :=
  s.restaurant.bind fun d => d.sumRating

/-- The `avgRating` field of the restaurant document, when present. -/
def RestaurantState.aggAvgRating (s : RestaurantState) : Option JSNum :=
  s.restaurant.bind fun d => d.avgRating

/-- Failure of the transaction body: `transaction.update` on a document that
does not exist aborts the whole transaction at commit, so neither write
happens. -/
inductive TxError where
  | updateOnMissingDocument
  deriving DecidableEq

/-- `updateWithRating` (firestore.js lines 51 to 77), the body of the
transaction run by `addReviewToRestaurant`. It reads the restaurant document,
computes
`newNumRatings = data?.numRatings ? data.numRatings + 1 : 1`,
`newSumRating = (data?.sumRating || 0) + Number(review.rating)`,
`newAverage = newSumRating / newNumRatings`,
updates the three aggregate fields and writes the new rating document stamped
with `Timestamp.fromDate(new Date())`; `clientNow` is the clock reading of the
submitting client at that moment. The transaction is atomic, so the whole body
is one state transition: both writes commit together or not at all. -/
def updateWithRating (clientNow : ℤ) (review : Review) (s : RestaurantState) :
    Except TxError RestaurantState :=
  let data := s.restaurant
  let newNumRatings : JSNum :=
    if optTruthy (data.bind fun d => d.numRatings) then
      (toNumber (data.bind fun d => d.numRatings)).add (.num 1)
    else .num 1
  let newSumRating : JSNum :=
    (if optTruthy (data.bind fun d => d.sumRating) then
       toNumber (data.bind fun d => d.sumRating)
     else .num 0).add (toNumber review.rating)
  let newAverage : JSNum := newSumRating.div newNumRatings
  match data with
  | none => .error .updateOnMissingDocument
  | some d =>
      .ok { restaurant := some { d with
              numRatings := some newNumRatings,
              sumRating := some newSumRating,
              avgRating := some newAverage },
            ratings := s.ratings ++
              [{ rating := review.rating, text := review.text,
                 timestamp := clientNow }] }

/-- Errors surfaced by `addReviewToRestaurant`: the two synchronous input
validation failures, and the rethrown failure of the transaction. -/
inductive StoreError where
  | invalidInput (msg : String)
  | transactionFailed
  deriving DecidableEq

/-- `addReviewToRestaurant` (firestore.js lines 92 to 118): validates that a
restaurant id and a review were supplied (JS truthiness: `undefined` and `""`
are rejected ids, `undefined` is a rejected review), then runs the
transaction; a transaction failure is logged and rethrown. -/
def addReviewToRestaurant (clientNow : ℤ) (restaurantId : Option String)
    (review : Option Review) (s : RestaurantState) :
    Except StoreError RestaurantState :=
  if !truthyStr restaurantId then
    .error (.invalidInput "No restaurant ID has been provided.")
  else
    match review with
    | none => .error (.invalidInput "A valid review has not been provided.")
    | some r =>
        match updateWithRating clientNow r s with
        | .ok s2 => .ok s2
        | .error _ => .error .transactionFailed

/-- Executing one submission against a store state: the transaction commits
atomically or not at all, so on any error the state is unchanged. Returns the
resulting state together with the error surfaced to the caller, if any. -/
def runSubmit (clientNow : ℤ) (restaurantId : Option String)
    (review : Option Review) (s : RestaurantState) :
    RestaurantState × Option StoreError :=
  match addReviewToRestaurant clientNow restaurantId review s with
  | .ok s2 => (s2, none)
  | .error e => (s, some e)

set_option linter.unusedVariables false in
/-- The transaction as committed by the backend: `clientNow` is the clock of
the submitting client when the transaction body executes, `serverNow` is the
clock of the persistence backend at commit time. The code stamps the review
with `Timestamp.fromDate(new Date())`, evaluated on the client, so the
backend clock is never consulted. -/
def commitSubmit (clientNow serverNow : ℤ) (review : Review)
    (s : RestaurantState) : Except TxError RestaurantState :=
  updateWithRating clientNow review s

/-- A serialized execution of several committed submissions with numeric
ratings, in the order the backend serializes them. `runTransaction` provides
serializable isolation per document, so any concurrent execution of the
transactions is equivalent to some such order. -/
def submitSeq (clientNow : ℤ) (ratings : List ℚ) (s : RestaurantState) :
    RestaurantState :=
  ratings.foldl
    (fun st r =>
      match updateWithRating clientNow { rating := some (.num r), text := none } st with
      | .ok s2 => s2
      | .error _ => st) s

/-! ## Query composer -/

/-- A value compared by an equality filter: a string (category, city) or a
number (price tier). -/
inductive FilterVal where
  | str (s : String)
  | num (n : JSNum)
  deriving DecidableEq

/-- One `where(field, "==", value)` clause of a composed query. -/
structure WhereClause where
  field : String
  value : FilterVal
  deriving DecidableEq

/-- One `orderBy(field, direction)` clause; `descending = true` for `"desc"`. -/
structure OrderClause where
  field : String
  descending : Bool
  deriving DecidableEq

/-- The pure value describing a composed Firestore query: target collection,
equality filters, ordering clauses, in the order they were attached. -/
structure QuerySpec where
  collectionPath : String
  whereClauses : List WhereClause
  orderClauses : List OrderClause
  deriving DecidableEq

/-- The filters configuration object destructured by `applyQueryFilters`:
each recognized option may be absent. -/
structure Filters where
  category : Option String
  city : Option String
  price : Option JSNum
  sort : Option String
  deriving DecidableEq

/-- `query(q, where(f, "==", v))`: attach one equality filter. -/
def addWhere (q : QuerySpec) (f : String) (v : FilterVal) : QuerySpec :=
  { q with whereClauses := q.whereClauses ++ [{ field := f, value := v }] }

/-- `query(q, orderBy(f, "desc"))`: attach one descending ordering clause. -/
def addOrderByDesc (q : QuerySpec) (f : String) : QuerySpec :=
  { q with orderClauses := q.orderClauses ++ [{ field := f, descending := true }] }

/-- `applyQueryFilters` (firestore.js lines 121 to 143): attaches an equality
filter for each truthy option among `category`, `city`, `price`, then the
ordering: `avgRating` descending when `sort === "Rating" || !sort`,
`numRatings` descending when `sort === "Review"`, and otherwise no ordering
clause at all. -/
def applyQueryFilters (q0 : QuerySpec) (f : Filters) : QuerySpec :=
  let q1 := if truthyStr f.category then
      addWhere q0 "category" (.str (f.category.getD "")) else q0
  let q2 := if truthyStr f.city then
      addWhere q1 "city" (.str (f.city.getD "")) else q1
  let q3 := if optTruthy f.price then
      addWhere q2 "price" (.num (f.price.getD .nan)) else q2
  if f.sort = some "Rating" || !truthyStr f.sort then
    addOrderByDesc q3 "avgRating"
  else if f.sort = some "Review" then
    addOrderByDesc q3 "numRatings"
  else q3

/-- `query(collection(db, "restaurants"))`: the base query every read path
starts from. -/
def baseRestaurantsQuery : QuerySpec :=
  { collectionPath := "restaurants", whereClauses := [], orderClauses := [] }

/-- The filterable fields of a stored restaurant record, used to give the
equality filters their membership semantics. -/
structure RestaurantRecord where
  category : String
  city : String
  price : JSNum
  avgRating : JSNum
  numRatings : JSNum
  deriving DecidableEq

/-- The value a stored restaurant record holds at a named field. -/
def fieldValue (r : RestaurantRecord) : String → Option FilterVal
  | "category" => some (.str r.category)
  | "city" => some (.str r.city)
  | "price" => some (.num r.price)
  | "avgRating" => some (.num r.avgRating)
  | "numRatings" => some (.num r.numRatings)
  | _ => none

/-- A record satisfies one equality filter. -/
def matchesClause (r : RestaurantRecord) (w : WhereClause) : Bool :=
  fieldValue r w.field == some w.value

/-- A record belongs to the result set of a composed query: it satisfies
every attached equality filter. Ordering clauses do not affect membership. -/
def matchesQuery (r : RestaurantRecord) (q : QuerySpec) : Bool :=
  q.whereClauses.all (matchesClause r)

/-! ## Realtime subscriptions and one-shot reads -/

/-- The argument passed as an observer callback: either invocable
(`typeof cb === "function"`) or not. -/
inductive JSCallbackArg where
  | function
  | notInvocable
  deriving DecidableEq

set_option linter.unusedVariables false in
/-- `getRestaurantsSnapshot` (firestore.js lines 168 to 192) at subscribe
time: a non-invocable callback is logged and the function returns `undefined`
(`none`) without subscribing; otherwise `onSnapshot` registers on the
composed query, modelled as `some` of that query. -/
def getRestaurantsSnapshot (cb : JSCallbackArg) (filters : Filters) :
    Option QuerySpec :=
  if cb != .function then none
  else some (applyQueryFilters baseRestaurantsQuery filters)

set_option linter.unusedVariables false in
/-- `getRestaurantSnapshotById` (firestore.js lines 220 to 242) at subscribe
time: a falsy id is logged and the function returns `undefined` (`none`)
without subscribing; otherwise `onSnapshot` registers on the document,
modelled as `some` of its path. The callback argument is never inspected
here. -/
def getRestaurantSnapshotById (restaurantId : Option String)
    (cb : JSCallbackArg) : Option String :=
  if !truthyStr restaurantId then none
  else some ("restaurants/" ++ restaurantId.getD "")

set_option linter.unusedVariables false in
/-- `getReviewsSnapshotByRestaurantId` (firestore.js lines 271 to 295) at
subscribe time: a falsy id is logged and the function returns `undefined`
(`none`) without subscribing; otherwise `onSnapshot` registers on the ratings
subcollection ordered by timestamp descending. The callback argument is never
inspected here. -/
def getReviewsSnapshotByRestaurantId (restaurantId : Option String)
    (cb : JSCallbackArg) : Option QuerySpec :=
  if !truthyStr restaurantId then none
  else some
    { collectionPath := "restaurants/" ++ restaurantId.getD "" ++ "/ratings",
      whereClauses := [],
      orderClauses := [{ field := "timestamp", descending := true }] }

/-- A restaurant document snapshot as the read paths see it when the document
exists: its aggregate fields plus the `timestamp` field, which may itself be
absent. -/
structure RestaurantDocSnap where
  fields : RestaurantData
  timestamp : Option ℤ
  deriving DecidableEq

/-- A JS exception thrown while mapping a snapshot. -/
inductive JsError where
  | typeError (msg : String)
  deriving DecidableEq

/-- What the observer of a document watch receives on one delivery: `missing`
models `cb(null)` for a document that does not exist, `data` models the
mapped snapshot `{id, ...data, timestamp: toDate()}`. -/
inductive DocDelivery where
  | missing
  | data (id : String) (fields : RestaurantData) (timestamp : ℤ)
  deriving DecidableEq

/-- The snapshot handler installed by `getRestaurantSnapshotById` (firestore.js
lines 230 to 241): a snapshot of a document that does not exist is delivered
to the observer as `null`; an existing document is mapped, which throws a
TypeError if its `timestamp` field is absent. -/
def restaurantSnapshotHandler (docId : String)
    (snap : Option RestaurantDocSnap) : Except JsError DocDelivery :=
  match snap with
  | none => .ok .missing
  | some d =>
      match d.timestamp with
      | none =>
          .error (.typeError "Cannot read properties of undefined (reading toDate)")
      | some ts => .ok (.data docId d.fields ts)

/-- The value returned by the one-shot read `getRestaurantById`: `undef`
models the bare `return` on a falsy id, `record` models the mapped document
`{...data, timestamp: toDate()}`. -/
inductive ReadResult where
  | undef
  | record (fields : RestaurantData) (timestamp : ℤ)
  deriving DecidableEq

/-- `getRestaurantById` (firestore.js lines 195 to 210): a falsy id is logged
and the function returns `undefined`; otherwise the document snapshot is
mapped unconditionally, so `docSnap.data()` being `undefined` (document does
not exist) or the `timestamp` field being absent throws a TypeError. -/
def getRestaurantById (restaurantId : Option String)
    (snap : Option RestaurantDocSnap) : Except JsError ReadResult :=
  if !truthyStr restaurantId then .ok .undef
  else
    match snap with
    | none =>
        .error (.typeError "Cannot read properties of undefined (reading timestamp)")
    | some d =>
        match d.timestamp with
        | none =>
            .error (.typeError "Cannot read properties of undefined (reading toDate)")
        | some ts => .ok (.record d.fields ts)

/-! ## Lemmas about the aggregate-update transaction -/

/-- Reduction of the transaction body when the restaurant document exists and
the aggregate fields are numbers or absent: `n` and `m` are the current
values with an absent field read as 0. -/
theorem updateWithRating_numeric (clientNow : ℤ) (d : RestaurantData)
    (rs : List RatingDoc) (n m r : ℚ) (txt : Option String)
    (hdn : d.numRatings = some (.num n) ∨ (d.numRatings = none ∧ n = 0))
    (hds : d.sumRating = some (.num m) ∨ (d.sumRating = none ∧ m = 0)) :
    updateWithRating clientNow { rating := some (.num r), text := txt }
        { restaurant := some d, ratings := rs } =
      .ok { restaurant := some
              { numRatings := some (.num (n + 1)),
                sumRating := some (.num (m + r)),
                avgRating := some ((JSNum.num (m + r)).div (.num (n + 1))) },
            ratings := rs ++
              [{ rating := some (.num r), text := txt, timestamp := clientNow }] } := by
  rcases hdn with hdn | ⟨hdn, hn⟩ <;> rcases hds with hds | ⟨hds, hm⟩ <;>
    by_cases hn0 : n = 0 <;> by_cases hm0 : m = 0 <;>
      simp_all [updateWithRating, optTruthy, JSNum.truthy, toNumber, JSNum.add]

/-! ## Claim theorems -/

/-- C1: for every restaurant state whose aggregate fields are numbers (an
absent field reading as 0, with `numRatings` non-negative) and every review
with numeric rating `r`, a successful `addReviewToRestaurant` performs one
atomic read-modify-write — `newNumRatings = currentNumRatings + 1`,
`newSumRating = currentSumRating + r`, `newAvgRating = newSumRating /
newNumRatings` — writing the three fields and appending exactly one new
rating document with rating `r`, all in a single transition (the two record
writes commit together or not at all, being one `Except.ok` state). -/
theorem addReview_updates_aggregates_atomically (clientNow : ℤ) (rid : String)
    (hrid : rid ≠ "") (d : RestaurantData) (rs : List RatingDoc)
    (n m r : ℚ) (txt : Option String) (hn : 0 ≤ n)
    (hdn : d.numRatings = some (.num n) ∨ (d.numRatings = none ∧ n = 0))
    (hds : d.sumRating = some (.num m) ∨ (d.sumRating = none ∧ m = 0)) :
    addReviewToRestaurant clientNow (some rid)
        (some { rating := some (.num r), text := txt })
        { restaurant := some d, ratings := rs } =
      .ok { restaurant := some
              { numRatings := some (.num (n + 1)),
                sumRating := some (.num (m + r)),
                avgRating := some (.num ((m + r) / (n + 1))) },
            ratings := rs ++
              [{ rating := some (.num r), text := txt, timestamp := clientNow }] } := by
  have hdiv : (JSNum.num (m + r)).div (.num (n + 1)) = .num ((m + r) / (n + 1)) := by
    have hne : n + 1 ≠ 0 := by positivity
    simp [JSNum.div, hne]
  have h := updateWithRating_numeric clientNow d rs n m r txt hdn hds
  simp [addReviewToRestaurant, truthyStr, hrid, h, hdiv]

/-- Witness for C1, the end-to-end instance of the claim: from
`{numRatings: 2, sumRating: 7, avgRating: 3.5}`, submitting a review with
rating 5 yields `{numRatings: 3, sumRating: 12, avgRating: 4}` and exactly
one new rating document with rating 5. -/
theorem addReview_updates_aggregates_atomically_witness :
    addReviewToRestaurant 0 (some "restaurant-R")
        (some { rating := some (.num 5), text := none })
        { restaurant := some
            { numRatings := some (.num 2), sumRating := some (.num 7),
              avgRating := some (.num (7 / 2)) },
          ratings := [] } =
      .ok { restaurant := some
              { numRatings := some (.num 3), sumRating := some (.num 12),
                avgRating := some (.num 4) },
            ratings := [{ rating := some (.num 5), text := none, timestamp := 0 }] } := by
  have h := addReview_updates_aggregates_atomically 0 "restaurant-R" (by decide)
    { numRatings := some (.num 2), sumRating := some (.num 7),
      avgRating := some (.num (7 / 2)) } [] 2 7 5 none (by norm_num)
    (Or.inl rfl) (Or.inl rfl)
  norm_num at h
  exact h

/-- A serialized run of committed numeric submissions, starting from numeric
aggregates `(k, m)`: the final aggregates are `(k + N, m + Σ rᵢ)` and, when
at least one submission ran, the average of the final sums; each submission
appended one rating document. -/
theorem submitSeq_numeric (clientNow : ℤ) :
    ∀ (ratings : List ℚ) (k : ℕ) (m : ℚ) (avg : Option JSNum) (rs : List RatingDoc),
    submitSeq clientNow ratings
        { restaurant := some
            { numRatings := some (.num k), sumRating := some (.num m), avgRating := avg },
          ratings := rs } =
      { restaurant := some
          { numRatings := some (.num (k + ratings.length)),
            sumRating := some (.num (m + ratings.sum)),
            avgRating := if ratings = [] then avg
              else some (.num ((m + ratings.sum) / (k + ratings.length))) },
        ratings := rs ++ ratings.map
          fun r => { rating := some (.num r), text := none, timestamp := clientNow } } := by
  intro ratings
  induction ratings with
  | nil => intro k m avg rs; simp [submitSeq]
  | cons r t ih =>
      intro k m avg rs
      have hstep := updateWithRating_numeric clientNow
        { numRatings := some (.num k), sumRating := some (.num m), avgRating := avg }
        rs k m r none (Or.inl rfl) (Or.inl rfl)
      have hk1 : ((k : ℚ) + 1) ≠ 0 := by positivity
      have hdiv : (JSNum.num (m + r)).div (.num (k + 1)) = .num ((m + r) / (k + 1)) := by
        simp [JSNum.div, hk1]
      have hfold : submitSeq clientNow (r :: t)
          { restaurant := some
              { numRatings := some (.num k), sumRating := some (.num m), avgRating := avg },
            ratings := rs } =
          submitSeq clientNow t
            { restaurant := some
                { numRatings := some (.num ((k : ℚ) + 1)),
                  sumRating := some (.num (m + r)),
                  avgRating := some (.num ((m + r) / ((k : ℚ) + 1))) },
              ratings := rs ++ [{ rating := some (.num r), text := none, timestamp := clientNow }] } := by
        simp only [submitSeq, List.foldl_cons, hstep, hdiv]
      have iht := ih (k + 1) (m + r)
        (some (.num ((m + r) / ((k : ℚ) + 1))))
        (rs ++ [{ rating := some (.num r), text := none, timestamp := clientNow }])
      push_cast at iht
      rw [hfold, iht]
      rcases eq_or_ne t ([] : List ℚ) with rfl | ht <;>
        simp_all [List.length_cons, List.sum_cons] <;>
          constructor <;> push_cast <;> ring_nf <;> trivial

/-- C2: for every nonempty list of numeric ratings submitted against a
restaurant starting from `numRatings = 0` (and `sumRating = 0`), and every
serialization order of the committed transactions (any permutation — the
backend serializes concurrent transactions, so every interleaving executes as
one such order), the final state has `numRatings = N` and
`avgRating = (Σ rᵢ) / N`. -/
theorem submitSeq_linearizable (clientNow : ℤ) (ratings ratings2 : List ℚ)
    (avg : Option JSNum) (rs : List RatingDoc)
    (hne : ratings ≠ []) (hperm : ratings.Perm ratings2) :
    ((submitSeq clientNow ratings
        { restaurant := some
            { numRatings := some (.num 0), sumRating := some (.num 0), avgRating := avg },
          ratings := rs }).aggNumRatings = some (.num ratings.length) ∧
     (submitSeq clientNow ratings
        { restaurant := some
            { numRatings := some (.num 0), sumRating := some (.num 0), avgRating := avg },
          ratings := rs }).aggAvgRating = some (.num (ratings.sum / ratings.length))) ∧
    ((submitSeq clientNow ratings2
        { restaurant := some
            { numRatings := some (.num 0), sumRating := some (.num 0), avgRating := avg },
          ratings := rs }).aggNumRatings = some (.num ratings.length) ∧
     (submitSeq clientNow ratings2
        { restaurant := some
            { numRatings := some (.num 0), sumRating := some (.num 0), avgRating := avg },
          ratings := rs }).aggAvgRating = some (.num (ratings.sum / ratings.length))) := by
  have hne2 : ratings2 ≠ [] := by
    intro h
    exact hne (List.Perm.eq_nil (h ▸ hperm))
  have hlen := hperm.length_eq
  have hsum := hperm.sum_eq
  have h1 := submitSeq_numeric clientNow ratings 0 0 avg rs
  have h2 := submitSeq_numeric clientNow ratings2 0 0 avg rs
  rw [if_neg hne] at h1
  rw [if_neg hne2] at h2
  push_cast at h1 h2
  simp only [zero_add] at h1 h2
  refine ⟨⟨?_, ?_⟩, ?_, ?_⟩
  · rw [h1]; simp [RestaurantState.aggNumRatings]
  · rw [h1]; simp [RestaurantState.aggAvgRating]
  · rw [h2]; simp [RestaurantState.aggNumRatings, ← hlen]
  · rw [h2]; simp [RestaurantState.aggAvgRating, ← hlen, ← hsum]

/-- Witness for C2: two submissions with ratings 5 and 3, run in either
serialization order, both end with `numRatings = 2` and `avgRating = 4`. -/
theorem submitSeq_linearizable_witness :
    ((submitSeq 0 [5, 3]
        { restaurant := some
            { numRatings := some (.num 0), sumRating := some (.num 0), avgRating := none },
          ratings := [] }).aggNumRatings = some (.num 2) ∧
     (submitSeq 0 [5, 3]
        { restaurant := some
            { numRatings := some (.num 0), sumRating := some (.num 0), avgRating := none },
          ratings := [] }).aggAvgRating = some (.num 4)) ∧
    ((submitSeq 0 [3, 5]
        { restaurant := some
            { numRatings := some (.num 0), sumRating := some (.num 0), avgRating := none },
          ratings := [] }).aggNumRatings = some (.num 2) ∧
     (submitSeq 0 [3, 5]
        { restaurant := some
            { numRatings := some (.num 0), sumRating := some (.num 0), avgRating := none },
          ratings := [] }).aggAvgRating = some (.num 4)) := by
  have h := submitSeq_linearizable 0 [5, 3] [3, 5] none [] (by decide) (by decide)
  norm_num at h
  exact h

/-- C3: a submission with a falsy restaurant id (absent or the empty string)
or an absent review fails with one of the synchronous invalid-input errors
and performs no writes: the store state is returned unchanged. -/
theorem submit_invalid_input_no_writes (clientNow : ℤ)
    (restaurantId : Option String) (review : Option Review)
    (s : RestaurantState)
    (h : truthyStr restaurantId = false ∨ review = none) :
    (runSubmit clientNow restaurantId review s).1 = s ∧
    ∃ msg, (runSubmit clientNow restaurantId review s).2 =
      some (.invalidInput msg) := by
  rcases h with h | rfl
  · simp [runSubmit, addReviewToRestaurant, h]
  · rcases htr : truthyStr restaurantId <;>
      simp [runSubmit, addReviewToRestaurant, htr]

/-- Witness for C3: submitting with `restaurantId = ""` and no review leaves
the store untouched and surfaces an invalid-input error. -/
theorem submit_invalid_input_no_writes_witness :
    (runSubmit 0 (some "") none { restaurant := none, ratings := [] }).1 =
      { restaurant := none, ratings := [] } ∧
    ∃ msg, (runSubmit 0 (some "") none { restaurant := none, ratings := [] }).2 =
      some (.invalidInput msg) :=
  submit_invalid_input_no_writes 0 (some "") none
    { restaurant := none, ratings := [] } (Or.inl (by decide))

/-- The ordering clauses produced by `applyQueryFilters`: `avgRating`
descending when `sort` is `"Rating"` or falsy, `numRatings` descending when
`sort` is `"Review"`, and nothing otherwise. -/
theorem applyQueryFilters_orderClauses (q : QuerySpec) (f : Filters) :
    (applyQueryFilters q f).orderClauses =
      q.orderClauses ++
        (if f.sort = some "Rating" || !truthyStr f.sort then
          [{ field := "avgRating", descending := true }]
         else if f.sort = some "Review" then
          [{ field := "numRatings", descending := true }]
         else []) := by
  simp only [applyQueryFilters, addWhere, addOrderByDesc]
  split_ifs <;> simp_all

/-- C4 counterexample: the claim says an unrecognized `sort` value falls back
to ordering by `avgRating` descending, but `buildQuery({sort: "unknown"})`
attaches no ordering clause at all — the query is unordered. -/
theorem applyQueryFilters_unknown_sort_cex :
    (applyQueryFilters baseRestaurantsQuery
        { category := none, city := none, price := none,
          sort := some "unknown" }).orderClauses = [] ∧
    ([] : List OrderClause) ≠ [{ field := "avgRating", descending := true }] := by
  constructor
  · rfl
  · decide

/-- C4 amended: `"Rating"` or a falsy `sort` orders by `avgRating`
descending, `"Review"` orders by `numRatings` descending, and any other
(unrecognized, truthy) `sort` value attaches no ordering clause, producing an
unordered query rather than failing. -/
theorem applyQueryFilters_sort_cases (f : Filters) :
    ((f.sort = some "Rating" ∨ truthyStr f.sort = false) →
      (applyQueryFilters baseRestaurantsQuery f).orderClauses =
        [{ field := "avgRating", descending := true }]) ∧
    (f.sort = some "Review" →
      (applyQueryFilters baseRestaurantsQuery f).orderClauses =
        [{ field := "numRatings", descending := true }]) ∧
    (f.sort ≠ some "Rating" → f.sort ≠ some "Review" → truthyStr f.sort = true →
      (applyQueryFilters baseRestaurantsQuery f).orderClauses = []) := by
  have h := applyQueryFilters_orderClauses baseRestaurantsQuery f
  refine ⟨fun hc => ?_, fun hc => ?_, fun h1 h2 h3 => ?_⟩
  · rw [h]
    rcases hc with hc | hc <;> simp [baseRestaurantsQuery, hc]
  · rw [h]
    simp only [hc]
    decide
  · rw [h]
    simp [baseRestaurantsQuery, h1, h2, h3]

/-- Witness for the amended C4: `sort = "Review"` orders by `numRatings`
descending. -/
theorem applyQueryFilters_sort_cases_witness :
    (applyQueryFilters baseRestaurantsQuery
        { category := none, city := none, price := none,
          sort := some "Review" }).orderClauses =
      [{ field := "numRatings", descending := true }] :=
  (applyQueryFilters_sort_cases
    { category := none, city := none, price := none, sort := some "Review" }).2.1 rfl

/-- The value a stored record holds at the field named `"category"`. -/
theorem fieldValue_category (r : RestaurantRecord) :
    fieldValue r "category" = some (.str r.category) := rfl

/-- The value a stored record holds at the field named `"city"`. -/
theorem fieldValue_city (r : RestaurantRecord) :
    fieldValue r "city" = some (.str r.city) := rfl

/-- The value a stored record holds at the field named `"price"`. -/
theorem fieldValue_price (r : RestaurantRecord) :
    fieldValue r "price" = some (.num r.price) := rfl

/-- The equality filters produced by `applyQueryFilters`: one clause per
truthy option, in the fixed order category, city, price. -/
theorem applyQueryFilters_whereClauses (q : QuerySpec) (f : Filters) :
    (applyQueryFilters q f).whereClauses =
      q.whereClauses ++
        (if truthyStr f.category then
          [{ field := "category", value := .str (f.category.getD "") }] else []) ++
        (if truthyStr f.city then
          [{ field := "city", value := .str (f.city.getD "") }] else []) ++
        (if optTruthy f.price then
          [{ field := "price", value := .num (f.price.getD .nan) }] else []) := by
  simp only [applyQueryFilters, addWhere, addOrderByDesc]
  split_ifs <;> simp_all

/-- C5: query composition is pure and deterministic — two filter objects with
the same four recognized options compose to equal QuerySpec values — the
recognized filters compose by logical AND on the result set, and the `sort`
option cannot change result-set membership, only the ordering clause. -/
theorem applyQueryFilters_pure_conjunctive :
    (∀ (q : QuerySpec) (f1 f2 : Filters),
        f1.category = f2.category → f1.city = f2.city →
        f1.price = f2.price → f1.sort = f2.sort →
        applyQueryFilters q f1 = applyQueryFilters q f2) ∧
    (∀ (f : Filters) (r : RestaurantRecord),
        matchesQuery r (applyQueryFilters baseRestaurantsQuery f) = true ↔
          ((truthyStr f.category = true → r.category = f.category.getD "") ∧
           (truthyStr f.city = true → r.city = f.city.getD "") ∧
           (optTruthy f.price = true → r.price = f.price.getD .nan))) ∧
    (∀ (f : Filters) (s1 s2 : Option String) (r : RestaurantRecord),
        matchesQuery r (applyQueryFilters baseRestaurantsQuery { f with sort := s1 }) =
        matchesQuery r (applyQueryFilters baseRestaurantsQuery { f with sort := s2 })) := by
  refine ⟨?_, ?_, ?_⟩
  · intro q f1 f2 h1 h2 h3 h4
    cases f1; cases f2; simp_all
  · intro f r
    obtain ⟨cat, city, price, sort⟩ := f
    have hw := applyQueryFilters_whereClauses baseRestaurantsQuery
      { category := cat, city := city, price := price, sort := sort }
    rw [matchesQuery, hw]
    simp only [baseRestaurantsQuery, List.nil_append, List.all_append, Bool.and_eq_true]
    cases cat <;> cases city <;> cases price <;>
      simp_all [truthyStr, optTruthy, matchesClause,
        fieldValue_category, fieldValue_city, fieldValue_price] <;>
      tauto
  · intro f s1 s2 r
    obtain ⟨cat, city, price, sort⟩ := f
    have h1 := applyQueryFilters_whereClauses baseRestaurantsQuery
      { category := cat, city := city, price := price, sort := s1 }
    have h2 := applyQueryFilters_whereClauses baseRestaurantsQuery
      { category := cat, city := city, price := price, sort := s2 }
    rw [matchesQuery, matchesQuery, h1, h2]

/-- Witness for C5: a record matching both attached filters is in the result
set of the composed query. -/
theorem applyQueryFilters_pure_conjunctive_witness :
    matchesQuery
      { category := "Pizza", city := "Springfield", price := .num 2,
        avgRating := .num 4, numRatings := .num 10 }
      (applyQueryFilters baseRestaurantsQuery
        { category := some "Pizza", city := some "Springfield",
          price := none, sort := some "Review" }) = true :=
  (applyQueryFilters_pure_conjunctive.2.1
    { category := some "Pizza", city := some "Springfield",
      price := none, sort := some "Review" }
    { category := "Pizza", city := "Springfield", price := .num 2,
      avgRating := .num 4, numRatings := .num 10 }).mpr
    (by refine ⟨fun _ => rfl, fun _ => rfl, fun h => ?_⟩; simp [optTruthy] at h)

/-- C6 counterexample: the claim says every subscription entry point rejects
a non-invocable observer at subscribe time with no subscription established,
but the single-document watch never inspects its callback argument: with a
valid id and a non-invocable observer it establishes the subscription. -/
theorem docWatch_accepts_bad_observer_cex :
    getRestaurantSnapshotById (some "r1") .notInvocable = some "restaurants/r1" ∧
    (some "restaurants/r1" : Option String) ≠ none := by
  constructor
  · rfl
  · simp

/-- C6 amended: the collection watch rejects a non-invocable observer at
subscribe time with no subscription established; the document watch and the
reviews watch reject an empty or undefined key the same way; but those two
never validate the observer — with a truthy key they establish a
subscription even for a non-invocable observer, which can then only fail at
first delivery. -/
theorem subscribe_time_validation (cb : JSCallbackArg) (f : Filters)
    (rid : Option String) :
    (cb ≠ .function → getRestaurantsSnapshot cb f = none) ∧
    (truthyStr rid = false → getRestaurantSnapshotById rid cb = none) ∧
    (truthyStr rid = false → getReviewsSnapshotByRestaurantId rid cb = none) ∧
    (truthyStr rid = true → (getRestaurantSnapshotById rid cb).isSome = true) ∧
    (truthyStr rid = true → (getReviewsSnapshotByRestaurantId rid cb).isSome = true) := by
  refine ⟨fun hc => ?_, fun hr => ?_, fun hr => ?_, fun hr => ?_, fun hr => ?_⟩ <;>
    [cases cb; skip; skip; skip; skip] <;>
    simp_all [getRestaurantsSnapshot, getRestaurantSnapshotById,
      getReviewsSnapshotByRestaurantId]

/-- Witness for the amended C6: the collection watch with a non-invocable
observer establishes no subscription. -/
theorem subscribe_time_validation_witness :
    getRestaurantsSnapshot .notInvocable
      { category := none, city := none, price := none, sort := none } = none :=
  (subscribe_time_validation .notInvocable
    { category := none, city := none, price := none, sort := none }
    (some "r1")).1 (by simp)

/-- C7: a document watch on a truthy id is established, and a snapshot of a
document that does not exist (never created, or deleted) is delivered to the
observer as the explicit null signal — an ordinary delivery, not a thrown
error — and that signal is distinct from every data delivery. -/
theorem docWatch_missing_delivers_null (rid : String) (h : rid ≠ "")
    (cb : JSCallbackArg) :
    (getRestaurantSnapshotById (some rid) cb).isSome = true ∧
    restaurantSnapshotHandler rid none = .ok .missing ∧
    (∀ (i : String) (d : RestaurantData) (ts : ℤ),
      (DocDelivery.missing : DocDelivery) ≠ .data i d ts) := by
  refine ⟨?_, rfl, fun i d ts => by simp⟩
  simp [getRestaurantSnapshotById, truthyStr, h]

/-- Witness for C7 at the id `"r1"`. -/
theorem docWatch_missing_delivers_null_witness :
    (getRestaurantSnapshotById (some "r1") .function).isSome = true ∧
    restaurantSnapshotHandler "r1" none = .ok .missing ∧
    (∀ (i : String) (d : RestaurantData) (ts : ℤ),
      (DocDelivery.missing : DocDelivery) ≠ .data i d ts) :=
  docWatch_missing_delivers_null "r1" (by decide) .function

/-- C8 counterexample: with the clock of the submitting client at 1 and the
clock of the persistence backend at 2, the committed review is stamped 1 —
the value written originates from the client, not from the backend. -/
theorem review_stamp_from_client_clock_cex :
    commitSubmit 1 2 { rating := some (.num 5), text := none }
        { restaurant := some
            { numRatings := some (.num 0), sumRating := some (.num 0), avgRating := none },
          ratings := [] } =
      .ok { restaurant := some
              { numRatings := some (.num 1), sumRating := some (.num 5),
                avgRating := some (.num 5) },
            ratings := [{ rating := some (.num 5), text := none, timestamp := 1 }] } ∧
    (1 : ℤ) ≠ 2 := by
  constructor
  · have h := updateWithRating_numeric 1
      { numRatings := some (.num 0), sumRating := some (.num 0), avgRating := none }
      [] 0 0 5 none (Or.inl rfl) (Or.inl rfl)
    rw [commitSubmit, h]
    norm_num [JSNum.div]
  · decide

/-- C8 amended: the creation timestamp stored with the review is the clock
reading of the submitting client when the transaction body runs
(`Timestamp.fromDate(new Date())`), independent of the clock of the
persistence backend at commit time. -/
theorem review_stamp_from_client_clock (clientNow serverNow : ℤ)
    (review : Review) (d : RestaurantData) (rs : List RatingDoc) :
    ∃ s2, commitSubmit clientNow serverNow review
        { restaurant := some d, ratings := rs } = .ok s2 ∧
      s2.ratings.map (fun rd => rd.timestamp) =
        rs.map (fun rd => rd.timestamp) ++ [clientNow] := by
  refine ⟨_, rfl, ?_⟩
  simp [commitSubmit, updateWithRating]

/-- C9: a truthy review object whose `rating` field is absent passes both
input checks and the transaction commits anyway, writing NaN into the
`sumRating` and `avgRating` fields and creating the review record, with no
error surfaced. -/
theorem submit_missing_rating_writes_nan (clientNow : ℤ) (rid : String)
    (h : rid ≠ "") (d : RestaurantData) (rs : List RatingDoc)
    (txt : Option String) :
    ∃ s2, addReviewToRestaurant clientNow (some rid)
        (some { rating := none, text := txt })
        { restaurant := some d, ratings := rs } = .ok s2 ∧
      s2.aggSumRating = some .nan ∧
      s2.aggAvgRating = some .nan ∧
      s2.ratings = rs ++ [{ rating := none, text := txt, timestamp := clientNow }] := by
  refine ⟨{ restaurant := some
              { numRatings := some (if optTruthy d.numRatings then
                  (toNumber d.numRatings).add (.num 1) else .num 1),
                sumRating := some .nan,
                avgRating := some .nan },
            ratings := rs ++ [{ rating := none, text := txt, timestamp := clientNow }] },
          ?_, ?_, ?_, ?_⟩
  · have hnan : ∀ x : JSNum, x.add .nan = .nan := by
      intro x; cases x <;> rfl
    have hdnan : ∀ x : JSNum, JSNum.nan.div x = .nan := by
      intro x; cases x <;> rfl
    simp [addReviewToRestaurant, truthyStr, h, updateWithRating, toNumber, hnan, hdnan]
  · simp [RestaurantState.aggSumRating]
  · simp [RestaurantState.aggAvgRating]
  · simp

/-- Witness for C9: from `{numRatings: 2, sumRating: 7}`, submitting
`{text: "good"}` commits and poisons the aggregates with NaN. -/
theorem submit_missing_rating_writes_nan_witness :
    ∃ s2, addReviewToRestaurant 0 (some "r1")
        (some { rating := none, text := some "good" })
        { restaurant := some
            { numRatings := some (.num 2), sumRating := some (.num 7),
              avgRating := some (.num (7 / 2)) },
          ratings := [] } = .ok s2 ∧
      s2.aggSumRating = some .nan ∧
      s2.aggAvgRating = some .nan ∧
      s2.ratings = [{ rating := none, text := some "good", timestamp := 0 }] := by
  have h := submit_missing_rating_writes_nan 0 "r1" (by decide)
    { numRatings := some (.num 2), sumRating := some (.num 7),
      avgRating := some (.num (7 / 2)) } [] (some "good")
  simpa using h

/-- C10: the one-shot read on a truthy id throws a TypeError while mapping
the snapshot when the document does not exist (reading `.timestamp` of
`undefined`) and also when the document lacks a `timestamp` field (calling
`.toDate()` on `undefined`), instead of returning a not-found indication —
in contrast to the document watch, which delivers an explicit null. -/
theorem getRestaurantById_missing_throws (rid : String) (h : rid ≠ "") :
    getRestaurantById (some rid) none =
      .error (.typeError "Cannot read properties of undefined (reading timestamp)") ∧
    (∀ d : RestaurantDocSnap, d.timestamp = none →
      getRestaurantById (some rid) (some d) =
        .error (.typeError "Cannot read properties of undefined (reading toDate)")) ∧
    restaurantSnapshotHandler rid none = .ok .missing := by
  refine ⟨?_, fun d hd => ?_, rfl⟩
  · simp [getRestaurantById, truthyStr, h]
  · simp [getRestaurantById, truthyStr, h, hd]

/-- Witness for C10 at the id `"r1"` and a document with no timestamp. -/
theorem getRestaurantById_missing_throws_witness :
    getRestaurantById (some "r1") none =
      .error (.typeError "Cannot read properties of undefined (reading timestamp)") ∧
    getRestaurantById (some "r1")
        (some { fields := { numRatings := none, sumRating := none, avgRating := none },
                timestamp := none }) =
      .error (.typeError "Cannot read properties of undefined (reading toDate)") ∧
    restaurantSnapshotHandler "r1" none = .ok .missing := by
  have h := getRestaurantById_missing_throws "r1" (by decide)
  exact ⟨h.1, h.2.1 _ rfl, h.2.2⟩

end FirestoreModel
